import Mathlib

/-!
# Verification development for `st-utils`

A shallow embedding in Lean 4 of the core pieces of the `st-utils`
repository (SensorThings ingestion bridges), together with theorems that
settle the frozen specification claims against the code.

Embedded components (each definition names the Python source it mirrors):

* the payload transformer pipeline (`transformers/core.py`,
  `transformers/netatmo.py`, `transformers/milesight.py`,
  `transformers/types.py`, `transformers/registry.py`);
* the Netatmo application unpacker
  (`transformers/application_unpackers.py`);
* the FROST remote-store client control flow (`frost.py`:
  `check_existing_object`, `make_frost_object`,
  `frost_observation_upload`);
* the connection retry loops (`connections.py`:
  `CredentialedHTTPSensorConnection._loop`,
  `CredentialedMQTTSensorConnection._loop`, `TTSConnection.retrieve`);
* the network monitor report cycle (`monitor.py`:
  `_NetworkMonitor.report`).

Network I/O is modelled by passing the outcome of each remote call as an
explicit argument; Python dicts are modelled as association lists with
last-binding-wins lookup, matching dict-overwrite semantics.
-/

namespace STUtils

/-- A Python runtime value as it appears in payload field maps.  Only the
shapes that actually flow through the pipeline are modelled: numbers are
collapsed to `Int` (no claim depends on float arithmetic), `time` stands
for a `datetime` produced from an epoch timestamp, and `dict` covers
nested JSON objects such as Netatmo's `dashboard_data`. -/
inductive Value where
  | int : Int → Value
  | str : String → Value
  | bool : Bool → Value
  | time : Int → Value
  | none : Value
  | dict : List (String × Value) → Value

/-- Python truthiness (`bool(v)`) for the modelled value shapes. -/
def Value.truthy : Value → Bool
  | .int n => n != 0
  | .str s => !s.isEmpty
  | .bool b => b
  | .time _ => true
  | .none => false
  | .dict m => !m.isEmpty

/-- A Python `dict[str, Any]` as an association list; a later binding of
the same key shadows an earlier one, as Python dict construction
overwrites. -/
abbrev PyDict := List (String × Value)

/-- Python dict lookup `m.get(k)`: the *last* binding of `k` wins. -/
def dictGet : PyDict → String → Option Value
  | [], _ => Option.none
  | kv :: rest, k =>
    match dictGet rest k with
    | some v => some v
    | Option.none => if kv.1 = k then some kv.2 else Option.none

/-- Python dict assignment `m[k] = v` on an association list with unique
keys: update in place if present, append otherwise. -/
def dictSet (m : PyDict) (k : String) (v : Value) : PyDict :=
  if m.any (fun kv => kv.1 = k) then
    m.map (fun kv => if kv.1 = k then (k, v) else kv)
  else m ++ [(k, v)]

/-- Python's `str.lower()`, character-by-character (executable model of
`String.toLower`, whose `mapAux` recursion the kernel cannot
evaluate). -/
def pyToLower (s : String) : String :=
  ⟨s.data.map Char.toLower⟩

/-- `{k.lower(): v for k, v in observations.items()}` from
`NativePayloadTransformer.from_unpack` (`transformers/core.py`). -/
def lowerKeys (m : PyDict) : PyDict :=
  m.map (fun kv => (pyToLower kv.1, kv.2))

/-- The canonical observed-property vocabulary
(`transformers/types.py`, enum `ObservedProperties`). -/
inductive ObservedProperties where
  | PHENOMENON_TIME
  | BATTERY_LEVEL
  | HUMIDITY_INDOOR
  | CO2_INDOOR
  | TEMP_IN
  | LIGHT_LVL_IN
  | PIR
  | PM10
  | PM_2PT5
  | G_PRESSURE_IN
  | A_PRESSURE_IN
  | NOISE_IN
  | TVOC
deriving Repr, DecidableEq, Fintype

/-- The `.value` string of each `ObservedProperties` enum member
(`transformers/types.py`). -/
def ObservedProperties.value : ObservedProperties → String
  | .PHENOMENON_TIME => "phenomenon_time"
  | .BATTERY_LEVEL => "battery_level"
  | .HUMIDITY_INDOOR => "humidity"
  | .CO2_INDOOR => "co2"
  | .TEMP_IN => "temperature_indoor"
  | .LIGHT_LVL_IN => "light_level"
  | .PIR => "passive_infrared"
  | .PM10 => "particulate_matter_10"
  | .PM_2PT5 => "particulate_matter_2_5"
  | .G_PRESSURE_IN => "gauge_pressure"
  | .A_PRESSURE_IN => "absolute_pressure"
  | .NOISE_IN => "noise"
  | .TVOC => "total_volatile_organic_compounds"

/-- The sensor-model enumeration (`transformers/types.py`,
`SupportedSensors`). -/
inductive SupportedSensors where
  | MILESIGHT_AM103L
  | MILESIGHT_AM308L
  | NETATMO_NWS03
deriving Repr, DecidableEq

/-- A concrete `NativePayloadTransformer` subclass
(`transformers/core.py`): its declared pydantic fields (all required,
none has a default), its `TRANSFORM` value-conversion table and its
`NAME_TRANSFORM` field-to-observed-property table.  Pydantic type
coercion of individual field values is not modelled (no claim depends on
it); field values are carried through untyped. -/
structure TransformerModel where
  fields : List String
  TRANSFORM : List (String × (Value → Value))
  NAME_TRANSFORM : List (String × ObservedProperties)

/-- `datetime.fromtimestamp(x, tz=timezone.utc)` as used in
`NetatmoNWS03.TRANSFORM` (`transformers/netatmo.py`).  A non-integer
argument raises in Python; that branch is modelled as the identity and
is exercised by no claim. -/
def pyFromTimestamp : Value → Value
  | .int n => .time n
  | v => v

/-- `lambda x: True if x == "trigger" else False` from
`MilesightAm308lPayload.TRANSFORM` (`transformers/milesight.py`);
Python `==` between a non-string and `"trigger"` is `False`. -/
def pirToBool : Value → Value
  | .str s => .bool (s == "trigger")
  | _ => .bool false

/-- `NetatmoNWS03` (`transformers/netatmo.py`). -/
def netatmoNWS03 : TransformerModel where
  fields := ["time_utc", "temperature", "co2", "humidity", "noise", "pressure"]
  TRANSFORM := [("time_utc", pyFromTimestamp)]
  NAME_TRANSFORM :=
    [("time_utc", .PHENOMENON_TIME),
     ("temperature", .TEMP_IN),
     ("co2", .CO2_INDOOR),
     ("humidity", .HUMIDITY_INDOOR),
     ("noise", .NOISE_IN),
     ("pressure", .G_PRESSURE_IN)]

/-- `MilesightAm103lPayload` (`transformers/milesight.py`). -/
def milesightAm103l : TransformerModel where
  fields := ["battery", "co2", "humidity", "temperature"]
  TRANSFORM := []
  NAME_TRANSFORM :=
    [("battery", .BATTERY_LEVEL),
     ("co2", .CO2_INDOOR),
     ("humidity", .HUMIDITY_INDOOR),
     ("temperature", .TEMP_IN)]

/-- `MilesightAm308lPayload` (`transformers/milesight.py`). -/
def milesightAm308l : TransformerModel where
  fields := ["battery", "co2", "humidity", "light_level", "pir", "pm10",
             "pm2_5", "pressure", "temperature", "tvoc"]
  TRANSFORM := [("pir", pirToBool)]
  NAME_TRANSFORM :=
    [("battery", .BATTERY_LEVEL),
     ("co2", .CO2_INDOOR),
     ("humidity", .HUMIDITY_INDOOR),
     ("light_level", .LIGHT_LVL_IN),
     ("pir", .PIR),
     ("pm10", .PM10),
     ("pm2_5", .PM_2PT5),
     ("pressure", .G_PRESSURE_IN),
     ("temperature", .TEMP_IN),
     ("tvoc", .TVOC)]

/-- `TRANSFORMER_MAP` (`transformers/registry.py`). -/
def TRANSFORMER_MAP : List (SupportedSensors × TransformerModel) :=
  [(.MILESIGHT_AM103L, milesightAm103l),
   (.MILESIGHT_AM308L, milesightAm308l),
   (.NETATMO_NWS03, netatmoNWS03)]

/-- Pydantic construction failure raised by `cls(**payload)` or by the
`_validate_transformers` model validator (`transformers/core.py`). -/
inductive ConstructError where
  | missingField : String → ConstructError
  | emptyNameTransform : ConstructError
deriving Repr, DecidableEq

/-- Binding of the declared fields during `cls(**payload)`: every
declared field must be present in the payload dict (pydantic has no
default for these fields); extra keys in the payload are silently
ignored (pydantic's default `extra='ignore'` behavior). -/
def constructFields (payload : PyDict) : List String → Except ConstructError PyDict
  | [] => .ok []
  | f :: fs =>
    match dictGet payload f with
    | some v => (constructFields payload fs).map (fun rest => (f, v) :: rest)
    | Option.none => .error (.missingField f)

/-- `cls(**payload)` for a transformer model: bind the declared fields,
then run the `_validate_transformers` model validator (which rejects an
empty `NAME_TRANSFORM`; all registered models have a non-empty one). -/
def construct (model : TransformerModel) (payload : PyDict) :
    Except ConstructError PyDict :=
  match constructFields payload model.fields with
  | .error e => .error e
  | .ok inst =>
    if model.NAME_TRANSFORM.isEmpty then .error .emptyNameTransform
    else .ok inst

/-- A constructed transformer instance: the bound field values plus the
`app_phenomenon_time` attribute set by `from_unpack`. -/
structure TransformerInst where
  vals : PyDict
  appPhenomenonTime : Option Value

/-- `NativePayloadTransformer.from_unpack` (`transformers/core.py`):
lower-case every key of the incoming native field map, construct the
model instance from the result, then attach the application phenomenon
time. -/
def from_unpack (model : TransformerModel) (observations : PyDict)
    (appPhenomenonTime : Option Value) : Except ConstructError TransformerInst :=
  (construct model (lowerKeys observations)).map
    (fun vals => ⟨vals, appPhenomenonTime⟩)

/-- `getattr(self, field)` on a constructed instance.  For every
registered model each `TRANSFORM`/`NAME_TRANSFORM` key is a declared
field, so the `AttributeError` branch is unreachable; it is modelled as
`Value.none`. -/
def getattrD (inst : PyDict) (f : String) : Value :=
  (dictGet inst f).getD Value.none

/-- `setattr(self, field, value)` on a constructed instance. -/
def setField (inst : PyDict) (f : String) (g : Value → Value) : PyDict :=
  inst.map (fun kv => if kv.1 = f then (kv.1, g kv.2) else kv)

/-- The first loop of `NativePayloadTransformer._transform`
(`transformers/core.py`): apply each `TRANSFORM` entry to the
corresponding attribute, in table order. -/
def applyTRANSFORM (tr : List (String × (Value → Value))) (inst : PyDict) : PyDict :=
  tr.foldl (fun acc ft => setField acc ft.1 ft.2) inst

/-- Python dict assignment on an `ObservedProperties`-keyed dict. -/
def opDictSet (m : List (ObservedProperties × Value)) (k : ObservedProperties)
    (v : Value) : List (ObservedProperties × Value) :=
  if m.any (fun kv => kv.1 = k) then
    m.map (fun kv => if kv.1 = k then (k, v) else kv)
  else m ++ [(k, v)]

/-- Lookup `transformed_results.get(k)` on an `ObservedProperties`-keyed
dict (keys are unique by construction of `opDictSet`). -/
def opDictGet (m : List (ObservedProperties × Value)) (k : ObservedProperties) :
    Option Value :=
  (m.find? (fun kv => kv.1 = k)).map (fun kv => kv.2)

/-- The second loop of `NativePayloadTransformer._transform`
(`transformers/core.py`): build `transformed_results`, a dict from
observed property to (transformed) field value, in `NAME_TRANSFORM`
insertion order. -/
def transformedResults (model : TransformerModel) (vals : PyDict) :
    List (ObservedProperties × Value) :=
  let inst := applyTRANSFORM model.TRANSFORM vals
  model.NAME_TRANSFORM.foldl
    (fun acc fd => opDictSet acc fd.2 (getattrD inst fd.1)) []

/-- An OGC SensorThings `Observation` as built by `to_stObservations`
(`sensor_things/core.py`); only the fields that method sets. -/
structure StObservation where
  result : Value
  phenomenonTime : Option Value

/-- Python `a or b` where `a : Option Value` (from `dict.get`) and the
fallback is `self.app_phenomenon_time`. -/
def pyOrElse (a : Option Value) (b : Option Value) : Option Value :=
  match a with
  | some v => if v.truthy then some v else b
  | Option.none => b

/-- `NativePayloadTransformer.to_stObservations`
(`transformers/core.py`): skip the reserved phenomenon-time entry;
every other entry becomes an `(Observation, datastream.value)` pair
whose `phenomenonTime` is the phenomenon-time entry's value if present
(and truthy) else the application timestamp. -/
def to_stObservations (model : TransformerModel) (inst : TransformerInst) :
    List (StObservation × String) :=
  let tr := transformedResults model inst.vals
  let pt := pyOrElse (opDictGet tr .PHENOMENON_TIME) inst.appPhenomenonTime
  tr.filterMap (fun dv =>
    if dv.1 = ObservedProperties.PHENOMENON_TIME then Option.none
    else some (⟨dv.2, pt⟩, dv.1.value))

/-! ## Application unpacker (`transformers/application_unpackers.py`) -/

/-- Equality test used for Python-dict keys.  The keys reaching
`unpacked_payload[device["_id"]]` are hashable scalars (a `dict` value
is unhashable and cannot be a key in Python). -/
def Value.keyEq : Value → Value → Bool
  | .int a, .int b => a == b
  | .str a, .str b => a == b
  | .bool a, .bool b => a == b
  | .time a, .time b => a == b
  | .none, .none => true
  | _, _ => false

/-- A Python dict keyed by sensor-id values (`data` of `NativePayload`). -/
abbrev VDict := List (Value × Value)

/-- Python dict assignment on a sensor-id-keyed dict. -/
def vdictSet (m : VDict) (k v : Value) : VDict :=
  if m.any (fun kv => kv.1.keyEq k) then
    m.map (fun kv => if kv.1.keyEq k then (k, v) else kv)
  else m ++ [(k, v)]

/-- `NativePayload` (`transformers/application_unpackers.py`): the
sensor-id-keyed unpacked data plus the optional application
timestamp. -/
structure NativePayload where
  data : VDict
  applicationTimestamp : Option Value

/-- The unpack exceptions (`exceptions.py`): `MissingPayloadKeysError`
(a `KeyError` naming the missing key) and its parent `UnpackError`
(any other exception during unpacking). -/
inductive UnpackExn where
  | missingPayloadKeys : String → UnpackExn
  | unpackError : UnpackExn
deriving Repr, DecidableEq

/-- The `for device in app_payload` loop of `NetatmoUnpacker.unpack`
(`transformers/application_unpackers.py`), with the accumulated
`unpacked_payload` threaded through.  Per device: read
`device["reachable"]` (KeyError if absent); skip the device when falsy;
otherwise `unpacked_payload[device["_id"]] = device["dashboard_data"]`
— Python evaluates the right-hand side before the subscript target, so
a missing `dashboard_data` key is reported before a missing `_id`. -/
def netatmoUnpackGo : List PyDict → VDict → Except UnpackExn VDict
  | [], acc => .ok acc
  | device :: rest, acc =>
    match dictGet device "reachable" with
    | Option.none => .error (.missingPayloadKeys "reachable")
    | some r =>
      if !r.truthy then netatmoUnpackGo rest acc
      else
        match dictGet device "dashboard_data" with
        | Option.none => .error (.missingPayloadKeys "dashboard_data")
        | some dd =>
          match dictGet device "_id" with
          | Option.none => .error (.missingPayloadKeys "_id")
          | some idv => netatmoUnpackGo rest (vdictSet acc idv dd)

/-- `NetatmoUnpacker.unpack`
(`transformers/application_unpackers.py`): iterate the devices and
return `NativePayload(data=unpacked_payload, application_timestamp=None)`;
a `KeyError` is re-raised as `MissingPayloadKeysError`. -/
def netatmoUnpack (appPayload : List PyDict) : Except UnpackExn NativePayload :=
  (netatmoUnpackGo appPayload []).map (fun data => ⟨data, Option.none⟩)

/-! ## Remote store client (`frost.py`)

The FROST server's contents are modelled as the list of entities created
so far; a POST appends.  Server-assigned URLs are modelled symbolically
from the collection URL and the entity name. -/

/-- The slice of a `SensorThingsObject` that `check_existing_object` and
`make_frost_object` inspect: `st_type` is the Python class name
(`sensor_things/core.py`, the `st_type` computed field), `name` the
display name, and `sensorLinkName` — for a Datastream — the name of
`iot_links["sensors"][0]`. -/
structure FrostEntity where
  st_type : String
  name : String
  sensorLinkName : Option String
deriving Repr, DecidableEq

/-- The remote store: entities created so far, in creation order. -/
abbrev FrostServer := List FrostEntity

/-- `check_existing_object` (`frost.py`).  The first match arm lists
`"Sensor" | "Thing" | "ObservedProperty" | "Locations"` — note the
*plural* `"Locations"`, which no entity's `st_type` (a class name such
as `"Location"`) ever equals; a `Location` entity therefore falls
through every arm and the function returns `False`.  For a Datastream,
each same-named datastream's linked sensor name is compared with
`entity.iot_links["sensors"][0].name`. -/
def check_existing_object (server : FrostServer) (entity : FrostEntity) : Bool :=
  if entity.st_type = "Sensor" ∨ entity.st_type = "Thing" ∨
     entity.st_type = "ObservedProperty" ∨ entity.st_type = "Locations" then
    server.any (fun e => e.st_type = entity.st_type && e.name = entity.name)
  else if entity.st_type = "Datastream" then
    (server.filter (fun e => e.st_type = "Datastream" && e.name = entity.name)).any
      (fun e => e.sensorLinkName = entity.sensorLinkName)
  else false

/-- `ENTITY_ENDPOINTS` (`frost.py`). -/
def ENTITY_ENDPOINTS : List (String × String) :=
  [("Sensor", "/Sensors"),
   ("Datastream", "/Datastreams"),
   ("ObservedProperty", "/ObservedProperties"),
   ("Thing", "/Things"),
   ("Observation", "/Observations"),
   ("FeatureOfInterest", "/FeaturesOfInterest"),
   ("HistoricalLocation", "/HistoricalLocations"),
   ("Location", "/Locations")]

/-- `expected_links_map` (`frost.py`, inside `make_frost_object`). -/
def expected_links_map (st : String) : List String :=
  if st = "Sensor" then ["Datastreams"]
  else if st = "Datastream" then
    ["ObservedProperties", "Observations", "Sensors", "Things"]
  else if st = "ObservedProperty" then ["Datastreams"]
  else if st = "Thing" then ["Datastreams", "HistoricalLocations", "Locations"]
  else if st = "Observation" then ["Datastream", "FeatureOfInterest"]
  else if st = "FeatureOfInterest" then ["Observations"]
  else if st = "HistoricalLocation" then ["Things", "Locations"]
  else if st = "Location" then ["HistoricalLocations", "Things"]
  else []

/-- Lookup in a string-valued dict such as `ENTITY_ENDPOINTS` (keys are
unique). -/
def strDictGet (m : List (String × String)) (k : String) : Option String :=
  (m.find? (fun kv => kv.1 = k)).map (fun kv => kv.2)

/-- Result of one `make_frost_object` call: the server contents after
the call, whether a POST was issued, and the returned link map. -/
structure CreateResult where
  server : FrostServer
  posted : Bool
  links : List (String × String)
deriving Repr, DecidableEq

/-- The resource URL the server reports in the `Location` header,
modelled symbolically from the collection URL and the entity name. -/
def selfUrl (collectionUrl : String) (name : String) : String :=
  collectionUrl ++ "(" ++ name ++ ")"

/-- A created resource's `<Relation>@iot.navigationLink`, modelled
symbolically. -/
def navLink (entityUrl : String) (link : String) : String :=
  entityUrl ++ "/" ++ link

/-- `make_frost_object` (`frost.py`): if `check_existing_object` reports
the entity present, skip and return the empty dict; otherwise POST the
entity to `iot_url` (when given) or its default collection endpoint and
return `{lower(link)+"_url": navigationLink, ..., "self_url": url}`. -/
def make_frost_object (server : FrostServer) (entity : FrostEntity)
    (iot_url : Option String) : CreateResult :=
  if check_existing_object server entity then ⟨server, false, []⟩
  else
    let collection := iot_url.getD
      ("FROST_ENDPOINT" ++ ((strDictGet ENTITY_ENDPOINTS entity.st_type).getD ""))
    let url := selfUrl collection entity.name
    ⟨server ++ [entity], true,
     (expected_links_map entity.st_type).map
       (fun l => (pyToLower l ++ "_url", navLink url l)) ++ [("self_url", url)]⟩

/-- The FROST upload exceptions relevant to `frost_observation_upload`:
`FrostUploadFailure` wraps the cause (`exceptions.py`); `raw` is an
exception that propagates unwrapped. -/
inductive UploadOutcome where
  | success : UploadOutcome
  | uploadFailure : String → UploadOutcome
  | raw : String → UploadOutcome
deriving Repr, DecidableEq

/-- The network-monitor updates a single `frost_observation_upload` call
performs for its sensor: `push_success`/`push_fail` increments and
whether `last_push_time` was updated. -/
structure MonitorDeltas where
  pushSuccess : Nat
  pushFail : Nat
  lastPushUpdated : Bool
deriving Repr, DecidableEq

/-- `frost_observation_upload` (`frost.py`).  `findResult` is the
outcome of the `find_datastream_url` call (`.error` when it raises, for
instance a `URLError` out of `filter_query`); `makeResult` the outcome
of `make_frost_object` on the returned push link.  The
`find_datastream_url` call sits *outside* the `try` block: an exception
there propagates unwrapped, with no monitor accounting.  Inside the
`try`, success records `push_success` and `last_push_time`; any
exception records `push_fail` and raises one `FrostUploadFailure`. -/
def frost_observation_upload (findResult : Except String String)
    (makeResult : String → Except String Unit) : MonitorDeltas × UploadOutcome :=
  match findResult with
  | .error e => (⟨0, 0, false⟩, .raw e)
  | .ok pushLink =>
    match makeResult pushLink with
    | .ok _ => (⟨1, 0, true⟩, .success)
    | .error e => (⟨0, 1, false⟩, .uploadFailure e)

/-! ## Connection loops (`connections.py`) -/

/-- The classes of exception the specification's error taxonomy
distinguishes.  The Python `_loop` code catches them all through one
bare `except Exception` handler; the class is carried here only so
theorems can quantify over it. -/
inductive ExnClass where
  | unpackError
  | pullTimeout
  | uploadFailure
  | unclassified
deriving Repr, DecidableEq

/-- The outcome of one `self.retrieve(push)` call as seen by `_loop`:
a normal return (the payload, identified by a number, was pulled,
processed and uploaded inside `retrieve`), an exception of some class,
or a `KeyboardInterrupt`. -/
inductive LoopEvent where
  | ok : Nat → LoopEvent
  | exn : ExnClass → LoopEvent
  | interrupt : LoopEvent
deriving Repr, DecidableEq

/-- The mutable state of one connection's `_loop`: the
`restart_attempt` counter, whether `self._stop_event` is set, and
whether the `logger.critical` death message was emitted.  The critical
message is in fact never emitted: on the self-stop path `self.stop()`
(`connections.py` lines 248–251) calls `self._thread.join(5)` on the
loop's *own* thread, which raises `RuntimeError("cannot join current
thread")` right after setting the stop event and before the
`logger.critical` call is reached — the thread dies with that uncaught
exception. -/
structure LoopState where
  restartAttempt : Nat
  stopped : Bool
  criticalLogged : Bool
deriving Repr, DecidableEq

/-- A fresh connection's loop state (`restart_attempt = 0`, stop event
clear). -/
def initLoopState : LoopState := ⟨0, false, false⟩

/-- What one iteration of `_loop` did: which payload `retrieve`
processed (none on an exception or interrupt), how long the iteration
slept, and whether it counted a failure. -/
structure IterRecord where
  processedPayload : Option Nat
  sleepSeconds : Nat
  countedFailure : Bool
deriving Repr, DecidableEq

/-- One iteration body of `CredentialedHTTPSensorConnection._loop`
(`connections.py` lines 253–272): on a normal `retrieve` the loop sleeps
`self.interval` and resets `restart_attempt` to 0; on
`KeyboardInterrupt` it calls `self.stop()`; on any other exception it
increments `restart_attempt`, sleeps 300 s, and — when the counter
equals `max_connection_retries` — calls `self.stop()`.  Each
`self.stop()` call sets the stop event and then raises `RuntimeError`
from joining the current thread, so the thread exits at once and the
`logger.critical` call after the exhaustion `stop()` (and the `break`
after the interrupt `stop()`) is never reached: `criticalLogged` stays
`false`.  There is no comparison with a previously pulled payload. -/
def httpLoopStep (maxRetries interval : Nat) (s : LoopState) (e : LoopEvent) :
    LoopState × IterRecord :=
  match e with
  | .ok p => ({ s with restartAttempt := 0 }, ⟨some p, interval, false⟩)
  | .interrupt => ({ s with stopped := true }, ⟨Option.none, 0, false⟩)
  | .exn _ =>
    let r := s.restartAttempt + 1
    if r = maxRetries then
      (⟨r, true, s.criticalLogged⟩, ⟨Option.none, 300, true⟩)
    else
      ({ s with restartAttempt := r }, ⟨Option.none, 300, true⟩)

/-- `CredentialedHTTPSensorConnection._loop` run over a sequence of
`retrieve` outcomes: `while not self._stop_event.is_set()` checks the
stop flag at the top of each iteration. -/
def httpLoopRun (maxRetries interval : Nat) (s : LoopState) :
    List LoopEvent → LoopState × List IterRecord
  | [] => (s, [])
  | e :: es =>
    if s.stopped then (s, [])
    else
      let (s', r) := httpLoopStep maxRetries interval s e
      let (s'', rs) := httpLoopRun maxRetries interval s' es
      (s'', r :: rs)

/-- One iteration body of `CredentialedMQTTSensorConnection._loop`
(`connections.py` lines 353–370): identical to the HTTP variant's
counting and stopping behavior — including `stop()`'s
`RuntimeError` from joining the current thread, which prevents the
`logger.critical` at lines 368–370 from ever running — except that a
normal `retrieve` is not followed by an interval sleep. -/
def mqttLoopStep (maxRetries : Nat) (s : LoopState) (e : LoopEvent) :
    LoopState × IterRecord :=
  match e with
  | .ok p => ({ s with restartAttempt := 0 }, ⟨some p, 0, false⟩)
  | .interrupt => ({ s with stopped := true }, ⟨Option.none, 0, false⟩)
  | .exn _ =>
    let r := s.restartAttempt + 1
    if r = maxRetries then
      (⟨r, true, s.criticalLogged⟩, ⟨Option.none, 300, true⟩)
    else
      ({ s with restartAttempt := r }, ⟨Option.none, 300, true⟩)

/-- `CredentialedMQTTSensorConnection._loop` run over a sequence of
`retrieve` outcomes. -/
def mqttLoopRun (maxRetries : Nat) (s : LoopState) :
    List LoopEvent → LoopState × List IterRecord
  | [] => (s, [])
  | e :: es =>
    if s.stopped then (s, [])
    else
      let (s', r) := mqttLoopStep maxRetries s e
      let (s'', rs) := mqttLoopRun maxRetries s' es
      (s'', r :: rs)

/-- One `self.payload_queue.get(timeout=timeout)` outcome inside
`TTSConnection.retrieve`: a timeout (`queue.Empty`) or a message whose
`uplink_message.version_ids.model_id` is the given value (`none` when
that nested key chain yields nothing). -/
inductive QueueEvent where
  | timeout : QueueEvent
  | msg : Option String → QueueEvent
deriving Repr, DecidableEq

/-- How one `TTSConnection.retrieve` call ends: a returned payload
(with its model id), the `ValueError` for a non-string model id, the
`TimeoutError` raised after the inner retry budget is exhausted, or the
supplied queue-outcome list running out first. -/
inductive TtsResult where
  | payload : String → TtsResult
  | valueError : TtsResult
  | timeoutError : TtsResult
  | outOfEvents : TtsResult
deriving Repr, DecidableEq

/-- The `while attempts <= max_retries` loop of `TTSConnection.retrieve`
(`connections.py` lines 546–604), threading the two
`network_monitor` counters it touches (`payloads_received`,
`rejected_payloads`).  A `queue.Empty` is caught *inside* `retrieve`:
it logs, increments `attempts` and the rejected-payload count, and
loops; only when `attempts` exceeds `max_retries` does the function
raise `TimeoutError`.  A received message increments
`payloads_received` and is returned (after the model-id check raises
`ValueError` on a non-string id); the `attempts = 0 if payload_received
else attempts` reset is unobservable because the function returns on
that path. -/
def ttsRetrieveGo (maxRetries : Nat) :
    Nat → List QueueEvent → Nat → Nat → TtsResult × Nat × Nat
  | attempts, events, received, rejected =>
    if attempts > maxRetries then (.timeoutError, received, rejected)
    else
      match events with
      | [] => (.outOfEvents, received, rejected)
      | .timeout :: es =>
        ttsRetrieveGo maxRetries (attempts + 1) es received (rejected + 1)
      | .msg mid :: _ =>
        match mid with
        | some m => (.payload m, received + 1, rejected)
        | Option.none => (.valueError, received + 1, rejected)

/-- `TTSConnection.retrieve` (`connections.py`): `attempts` starts at 1;
the monitor deltas start at zero. -/
def ttsRetrieve (maxRetries : Nat) (events : List QueueEvent) :
    TtsResult × Nat × Nat :=
  ttsRetrieveGo maxRetries 1 events 0 0

/-! ## Network monitor (`monitor.py`) -/

/-- Log severities distinguished by `_NetworkMonitor.report`. -/
inductive LogLevel where
  | info
  | warning
  | critical
deriving Repr, DecidableEq

/-- The `_NetworkMonitor` fields that `report` reads
(`monitor.py`).  Counter dicts are association lists with unique
keys. -/
structure MonitorState where
  startingApplicationThreads : List String
  pushSuccess : List (String × Nat)
  pushFail : List (String × Nat)
  rejectedPayloads : List (String × Nat)
  payloadsReceived : List (String × Nat)
  expectedSensors : List String
deriving Repr, DecidableEq

/-- The observable effects of one `_NetworkMonitor.report` cycle. -/
structure ReportOutcome where
  deadThreads : List String
  terminated : Bool
  threadLogLevel : LogLevel
  countersLogged : Bool
  neverReported : List String
  reportWritten : Bool
deriving Repr, DecidableEq

/-- `_NetworkMonitor.set_starting_threads` (`monitor.py`): raises
`ValueError` on an empty collection, else records the set. -/
def set_starting_threads (s : MonitorState) (threads : List String) :
    Except String MonitorState :=
  if threads.isEmpty then .error "No threads passed."
  else .ok { s with startingApplicationThreads := threads }

/-- One report cycle of `_NetworkMonitor.report` (`monitor.py` lines
110–175), after the initial sleep; `liveThreads` is the set of
currently live thread names (`threading.enumerate()`).  Under the lock:
`dead_threads = starting_application_threads - live_threads`; when
non-empty the thread message is logged via `main_logger.warning` and
`sys.exit(1)` terminates the process before any counter is logged or
the snapshot written; when empty the message is logged at info level,
the counters are logged, expected sensors absent from `push_success`
are flagged, and the HTML snapshot is written after the lock is
released. -/
def monitorReport (s : MonitorState) (liveThreads : List String) : ReportOutcome :=
  if (s.startingApplicationThreads.filter
        (fun t => !liveThreads.contains t)).isEmpty then
    ⟨s.startingApplicationThreads.filter (fun t => !liveThreads.contains t),
     false, .info, true,
     s.expectedSensors.filter
       (fun x => !(s.pushSuccess.map Prod.fst).contains x),
     true⟩
  else
    ⟨s.startingApplicationThreads.filter (fun t => !liveThreads.contains t),
     true, .warning, false, [], false⟩

/-! ## Sample inputs (from the docstrings in the source) -/

/-- Whether an `Except` result is a success. -/
def exceptOk {ε α : Type} : Except ε α → Bool
  | .ok _ => true
  | .error _ => false

/-- A Milesight AM308L native field map (the `decoded_payload` sample in
`application_unpackers.py`) extended with one undeclared key. -/
def am308lNativeSample : PyDict :=
  [("battery", .int 53), ("co2", .int 4665), ("humidity", .int 75),
   ("light_level", .int 1), ("pir", .str "trigger"), ("pm10", .int 107),
   ("pm2_5", .int 101), ("pressure", .int 1017), ("temperature", .int 23),
   ("tvoc", .int 1), ("undeclared_extra", .int 999)]

/-- The field values `MilesightAm308lPayload` binds from
`am308lNativeSample`, in declaration order. -/
def am308lBoundVals : PyDict :=
  [("battery", .int 53), ("co2", .int 4665), ("humidity", .int 75),
   ("light_level", .int 1), ("pir", .str "trigger"), ("pm10", .int 107),
   ("pm2_5", .int 101), ("pressure", .int 1017), ("temperature", .int 23),
   ("tvoc", .int 1)]

/-- A Netatmo `dashboard_data` field map with the vendor's mixed-case
keys (the sample in `transformers/netatmo.py`), including the two
undeclared trend fields. -/
def netatmoMixedCaseSample : PyDict :=
  [("time_utc", .int 1765374089), ("Temperature", .int 23),
   ("CO2", .int 871), ("Humidity", .int 46), ("Noise", .int 33),
   ("Pressure", .int 1014), ("temp_trend", .str "stable"),
   ("pressure_trend", .str "up")]

/-- The same field map with every key already lower-case. -/
def netatmoLowerCaseSample : PyDict :=
  [("time_utc", .int 1765374089), ("temperature", .int 23),
   ("co2", .int 871), ("humidity", .int 46), ("noise", .int 33),
   ("pressure", .int 1014), ("temp_trend", .str "stable"),
   ("pressure_trend", .str "up")]

/-- The field values `NetatmoNWS03` binds from the sample, in
declaration order. -/
def netatmoBoundVals : PyDict :=
  [("time_utc", .int 1765374089), ("temperature", .int 23),
   ("co2", .int 871), ("humidity", .int 46), ("noise", .int 33),
   ("pressure", .int 1014)]

/-- A constructed `NetatmoNWS03` instance with an application
timestamp attached. -/
def netatmoSampleInst : TransformerInst :=
  ⟨netatmoBoundVals, some (Value.str "2025-12-25T20:08:00Z")⟩

/-- A reachable Netatmo device record
(`application_unpackers.py` docstring). -/
def netatmoDeviceReachable : PyDict :=
  [("_id", .str "70:ee:50:7f:9d:32"), ("reachable", .bool true),
   ("dashboard_data",
     .dict [("time_utc", .int 1765374089), ("Temperature", .int 23)])]

/-- An unreachable Netatmo device record. -/
def netatmoDeviceUnreachable : PyDict :=
  [("_id", .str "70:ee:50:7f:a4:76"), ("reachable", .bool false),
   ("dashboard_data", .dict [])]

/-- A `Location` entity as `make_frost_object` sees it
(`sensor_things/core.py`: `Location.st_type == "Location"`). -/
def locationEntity : FrostEntity := ⟨"Location", "lab-room-1", Option.none⟩

/-- A `Sensor` entity. -/
def sensorEntity : FrostEntity := ⟨"Sensor", "netatmo.nws03", Option.none⟩

/-- A monitor state whose starting threads include one thread (`app1`)
that is no longer live. -/
def deadThreadMonitorState : MonitorState :=
  ⟨["app1", "app2"], [], [], [], [], []⟩

/-! ## Claim C1 — HTTP loop duplicate-poll suppression -/

/-- C1 counterexample: the HTTP `_loop` (`connections.py` lines
253–272) has no `lastPayload` comparison.  Pulling the same payload
(`7`) twice with `interval = 400` processes it in both iterations and
sleeps the full 400 s each time; no iteration sleeps `interval/4 =
100`, contradicting the claimed duplicate-poll suppression. -/
theorem C1_counterexample :
    httpLoopRun 10 400 initLoopState [.ok 7, .ok 7] =
      (⟨0, false, false⟩,
       [⟨some 7, 400, false⟩, ⟨some 7, 400, false⟩]) ∧
    (httpLoopRun 10 400 initLoopState [.ok 7, .ok 7]).2.all
      (fun r => r.sleepSeconds ≠ 100) = true := by
  decide

/-- C1 (amended): the HTTP-polling loop performs no duplicate-payload
comparison: for any not-yet-stopped state, a payload pulled twice in a
row is processed (and uploaded) in both iterations, and every
successful iteration sleeps the full `interval` (never
`interval/4`). -/
theorem C1_no_duplicate_suppression (maxRetries interval p : Nat)
    (s : LoopState) (h : s.stopped = false) :
    (httpLoopRun maxRetries interval s [.ok p, .ok p]).2 =
      [⟨some p, interval, false⟩, ⟨some p, interval, false⟩] := by
  simp [httpLoopRun, httpLoopStep, h]

/-- C1 witness: the amended theorem at `maxRetries = 10`,
`interval = 300`, payload `7`, fresh loop state. -/
theorem C1_no_duplicate_suppression_witness :
    initLoopState.stopped = false ∧
    (httpLoopRun 10 300 initLoopState [.ok 7, .ok 7]).2 =
      [⟨some 7, 300, false⟩, ⟨some 7, 300, false⟩] :=
  ⟨rfl, C1_no_duplicate_suppression 10 300 7 initLoopState rfl⟩

/-! ## Claim C7 — exception classification in the loop -/

/-- C7 counterexample: the loop has a single generic `except Exception`
handler; an exception classified as `UnpackError` increments the
failure counter from 0 to 1 and the iteration records a counted
failure, contradicting the claim that UnpackError leaves the counter
unchanged. -/
theorem C7_counterexample :
    (httpLoopRun 10 300 initLoopState [.exn .unpackError]).1.restartAttempt = 1 ∧
    (httpLoopRun 10 300 initLoopState [.exn .unpackError]).2 =
      [⟨Option.none, 300, true⟩] := by
  decide

/-- With the attempt counter and the pending timeouts summing past
`max_retries`, `TTSConnection.retrieve`'s inner loop exhausts its
budget and raises `TimeoutError`, having counted every timeout as a
rejected payload. -/
theorem ttsRetrieveGo_timeout_exhaustion (maxRetries : Nat) :
    ∀ (k attempts received rejected : Nat),
      attempts + k = maxRetries + 1 →
      ttsRetrieveGo maxRetries attempts (List.replicate k .timeout)
          received rejected =
        (.timeoutError, received, rejected + k) := by
  intro k
  induction k with
  | zero =>
    intro attempts received rejected h
    rw [Nat.add_zero] at h
    subst h
    simp [ttsRetrieveGo, Nat.lt_succ_self]
  | succ k ih =>
    intro attempts received rejected h
    have hle : ¬ attempts > maxRetries := by omega
    rw [List.replicate_succ, ttsRetrieveGo, if_neg hle]
    have harith : rejected + 1 + k = rejected + (k + 1) := by omega
    rw [ih (attempts + 1) received (rejected + 1) (by omega), harith]

/-- As long as the inner budget is not exhausted, queue timeouts are
absorbed: each one adds a rejected-payload count and the next message
is still returned. -/
theorem ttsRetrieveGo_timeouts_then_msg (maxRetries : Nat) (m : String) :
    ∀ (k attempts received rejected : Nat),
      attempts + k ≤ maxRetries →
      ttsRetrieveGo maxRetries attempts
          (List.replicate k .timeout ++ [.msg (some m)]) received rejected =
        (.payload m, received + 1, rejected + k) := by
  intro k
  induction k with
  | zero =>
    intro attempts received rejected h
    rw [Nat.add_zero] at h
    simp [ttsRetrieveGo, Nat.not_lt.mpr h]
  | succ k ih =>
    intro attempts received rejected h
    have hle : ¬ attempts > maxRetries := by omega
    rw [List.replicate_succ, List.cons_append, ttsRetrieveGo, if_neg hle]
    have harith : rejected + 1 + k = rejected + (k + 1) := by omega
    rw [ih (attempts + 1) received (rejected + 1) (by omega), harith]

/-- C7 (amended): the loop classifies nothing — every exception class,
UnpackError included, increments `restart_attempt` and counts toward
the retry budget.  A queue timeout, however, never reaches the loop by
itself: `TTSConnection.retrieve` absorbs up to `max_retries - 1`
consecutive timeouts internally (counting each as a rejected payload)
and still returns the next message; only a run of `max_retries`
consecutive timeouts exhausts the inner budget and raises the
`TimeoutError` that the loop then counts like any other exception. -/
theorem C7_every_exception_counts :
    (∀ (maxRetries interval : Nat) (s : LoopState) (c : ExnClass),
      (httpLoopStep maxRetries interval s (.exn c)).1.restartAttempt =
        s.restartAttempt + 1 ∧
      (httpLoopStep maxRetries interval s (.exn c)).2.countedFailure = true) ∧
    (∀ (maxRetries : Nat) (s : LoopState) (c : ExnClass),
      (mqttLoopStep maxRetries s (.exn c)).1.restartAttempt =
        s.restartAttempt + 1 ∧
      (mqttLoopStep maxRetries s (.exn c)).2.countedFailure = true) ∧
    ttsRetrieve 10 [.timeout, .msg (some "am308l")] =
      (.payload "am308l", 1, 1) ∧
    (∀ maxRetries : Nat,
      ttsRetrieve maxRetries (List.replicate maxRetries .timeout) =
        (.timeoutError, 0, maxRetries)) ∧
    (∀ (maxRetries k : Nat) (m : String), k < maxRetries →
      ttsRetrieve maxRetries
          (List.replicate k .timeout ++ [.msg (some m)]) =
        (.payload m, 1, k)) := by
  refine ⟨fun maxRetries interval s c => ?_, fun maxRetries s c => ?_,
    by decide, fun maxRetries => ?_, fun maxRetries k m hk => ?_⟩
  · simp only [httpLoopStep]
    split <;> simp
  · simp only [mqttLoopStep]
    split <;> simp
  · have := ttsRetrieveGo_timeout_exhaustion maxRetries maxRetries 1 0 0
      (by omega)
    simpa [ttsRetrieve] using this
  · have := ttsRetrieveGo_timeouts_then_msg maxRetries m k 1 0 0 (by omega)
    simpa [ttsRetrieve] using this

/-- C7 witness: the absorbed-timeouts branch of the amended theorem at
two consecutive timeouts against the default inner budget of 10. -/
theorem C7_every_exception_counts_witness :
    ttsRetrieve 10 (List.replicate 2 .timeout ++ [.msg (some "am308l")]) =
      (.payload "am308l", 1, 2) :=
  C7_every_exception_counts.2.2.2.2 10 2 "am308l" (by omega)

/-! ## Claim C8 — retry-budget exhaustion stops the connection -/

/-- No branch of the HTTP loop body sets the critical-log flag:
`stop()`'s join of the current thread raises before `logger.critical`
runs. -/
theorem httpLoopStep_criticalLogged (maxRetries interval : Nat)
    (s : LoopState) (e : LoopEvent) :
    (httpLoopStep maxRetries interval s e).1.criticalLogged =
      s.criticalLogged := by
  cases e with
  | ok p => rfl
  | interrupt => rfl
  | exn c =>
    simp only [httpLoopStep]
    split <;> rfl

/-- No branch of the MQTT loop body sets the critical-log flag. -/
theorem mqttLoopStep_criticalLogged (maxRetries : Nat)
    (s : LoopState) (e : LoopEvent) :
    (mqttLoopStep maxRetries s e).1.criticalLogged = s.criticalLogged := by
  cases e with
  | ok p => rfl
  | interrupt => rfl
  | exn c =>
    simp only [mqttLoopStep]
    split <;> rfl

/-- The `logger.critical` death message is unreachable: starting from a
state where it has not been emitted, no run of the HTTP loop ever
emits it. -/
theorem httpLoopRun_never_critical (maxRetries interval : Nat) :
    ∀ (events : List LoopEvent) (s : LoopState), s.criticalLogged = false →
      (httpLoopRun maxRetries interval s events).1.criticalLogged = false := by
  intro events
  induction events with
  | nil => intro s h; exact h
  | cons e es ih =>
    intro s h
    rcases hE : httpLoopStep maxRetries interval s e with ⟨s', r⟩
    have hs' : s'.criticalLogged = false := by
      have hstep := httpLoopStep_criticalLogged maxRetries interval s e
      rw [hE] at hstep
      exact hstep.trans h
    rw [httpLoopRun]
    by_cases hs : s.stopped
    · rw [if_pos hs]; exact h
    · rw [if_neg hs]
      simp only [hE]
      rcases hR : httpLoopRun maxRetries interval s' es with ⟨s'', rs⟩
      simp only [hR]
      have hrun := ih s' hs'
      rw [hR] at hrun
      exact hrun

/-- The same unreachability for the MQTT loop variant. -/
theorem mqttLoopRun_never_critical (maxRetries : Nat) :
    ∀ (events : List LoopEvent) (s : LoopState), s.criticalLogged = false →
      (mqttLoopRun maxRetries s events).1.criticalLogged = false := by
  intro events
  induction events with
  | nil => intro s h; exact h
  | cons e es ih =>
    intro s h
    rcases hE : mqttLoopStep maxRetries s e with ⟨s', r⟩
    have hs' : s'.criticalLogged = false := by
      have hstep := mqttLoopStep_criticalLogged maxRetries s e
      rw [hE] at hstep
      exact hstep.trans h
    rw [mqttLoopRun]
    by_cases hs : s.stopped
    · rw [if_pos hs]; exact h
    · rw [if_neg hs]
      simp only [hE]
      rcases hR : mqttLoopRun maxRetries s' es with ⟨s'', rs⟩
      simp only [hR]
      have hrun := ih s' hs'
      rw [hR] at hrun
      exact hrun

/-- C8, evaluated at the claim's failing input: a connection with
`maxRetries = 3` seeing three consecutive counting failures sets its
stop event and the loop exits (a fourth event is never processed), and
a successful iteration resets the failure counter to zero, with a step
stopping the loop exactly when the incremented counter reaches
`maxRetries` (or a `KeyboardInterrupt`/already-set stop signal arrives
— the external stop path); but the claimed critical log is *never*
emitted, on this or any other run from a fresh state, because
`stop()`'s `join(5)` of the loop's own thread raises `RuntimeError`
before `logger.critical` executes. -/
theorem C8_stop_after_max_retries :
    ((httpLoopRun 3 300 initLoopState
        [.exn .uploadFailure, .exn .uploadFailure, .exn .uploadFailure]).1 =
      ⟨3, true, false⟩) ∧
    ((mqttLoopRun 3 initLoopState
        [.exn .uploadFailure, .exn .uploadFailure, .exn .uploadFailure]).1 =
      ⟨3, true, false⟩) ∧
    ((httpLoopRun 3 300 initLoopState
        [.exn .uploadFailure, .exn .uploadFailure, .exn .uploadFailure,
         .ok 9]).2.length = 3) ∧
    (∀ (maxRetries interval : Nat) (events : List LoopEvent),
      (httpLoopRun maxRetries interval initLoopState events).1.criticalLogged =
        false) ∧
    (∀ (maxRetries : Nat) (events : List LoopEvent),
      (mqttLoopRun maxRetries initLoopState events).1.criticalLogged = false) ∧
    (∀ (maxRetries interval : Nat) (s : LoopState) (p : Nat),
      (httpLoopStep maxRetries interval s (.ok p)).1 =
        { s with restartAttempt := 0 }) ∧
    (∀ (maxRetries interval : Nat) (s : LoopState) (e : LoopEvent),
      ((httpLoopStep maxRetries interval s e).1.stopped = true ↔
        s.stopped = true ∨ e = .interrupt ∨
          (∃ c, e = .exn c ∧ s.restartAttempt + 1 = maxRetries))) := by
  refine ⟨by decide, by decide, by decide,
    fun maxRetries interval events =>
      httpLoopRun_never_critical maxRetries interval events initLoopState rfl,
    fun maxRetries events =>
      mqttLoopRun_never_critical maxRetries events initLoopState rfl,
    fun maxRetries interval s p => rfl,
    fun maxRetries interval s e => ?_⟩
  cases e with
  | ok p => simp [httpLoopStep]
  | interrupt => simp [httpLoopStep]
  | exn c =>
    by_cases h : s.restartAttempt + 1 = maxRetries <;>
      simp [httpLoopStep, h]

/-! ## Claim C2 — idempotent entity creation -/

/-- C2: the `check_existing_object` match arm for the simple types
lists the *plural* string `"Locations"` while a `Location` entity's
`st_type` is the class name `"Location"`; the existence check therefore
never reports a Location present, and two sequential identical
`make_frost_object` calls POST the Location twice — entity creation is
not idempotent for the Location type.  For the other types (here:
Sensor) the second call is skipped and returns the empty link map. -/
theorem C2_location_create_posts_twice :
    check_existing_object [locationEntity] locationEntity = false ∧
    (make_frost_object [] locationEntity Option.none).posted = true ∧
    (make_frost_object
        (make_frost_object [] locationEntity Option.none).server
        locationEntity Option.none).posted = true ∧
    (make_frost_object
        (make_frost_object [] locationEntity Option.none).server
        locationEntity Option.none).server =
      [locationEntity, locationEntity] ∧
    (make_frost_object [] sensorEntity Option.none).posted = true ∧
    (make_frost_object
        (make_frost_object [] sensorEntity Option.none).server
        sensorEntity Option.none).posted = false ∧
    (make_frost_object
        (make_frost_object [] sensorEntity Option.none).server
        sensorEntity Option.none).links = [] ∧
    (make_frost_object
        (make_frost_object [] sensorEntity Option.none).server
        sensorEntity Option.none).server = [sensorEntity] := by
  decide

/-! ## Claim C6 — uploadObservation accounting -/

/-- C6 counterexample: in `frost_observation_upload` (`frost.py`) the
`find_datastream_url` call sits outside the `try` block, so an
exception raised during URL resolution (for example the `URLError`
re-raised by `filter_query`) propagates unwrapped: the per-sensor
failure counter is not incremented, `last_push_time` is untouched and
no `FrostUploadFailure` is raised — neither of the claimed accounting
outcomes happens. -/
theorem C6_counterexample :
    frost_observation_upload (.error "URLError") (fun _ => .ok ()) =
      (⟨0, 0, false⟩, .raw "URLError") ∧
    (frost_observation_upload (.error "URLError")
        (fun _ => .ok ())).1.pushFail = 0 ∧
    (frost_observation_upload (.error "URLError") (fun _ => .ok ())).2 ≠
      .uploadFailure "URLError" := by
  refine ⟨rfl, rfl, ?_⟩
  intro h
  simp [frost_observation_upload] at h

/-- C6 (amended): only a failure *inside* the `try` block (the POST via
`make_frost_object`) increments the per-sensor failure counter and
raises a single `FrostUploadFailure` wrapping the cause; success
increments the success counter and updates the last-push timestamp;
but an exception during URL resolution propagates unwrapped with no
monitor accounting at all. -/
theorem C6_upload_accounting :
    (∀ (e : String) (mk : String → Except String Unit),
      frost_observation_upload (.error e) mk = (⟨0, 0, false⟩, .raw e)) ∧
    (∀ (u : String) (mk : String → Except String Unit), mk u = .ok () →
      frost_observation_upload (.ok u) mk = (⟨1, 0, true⟩, .success)) ∧
    (∀ (u : String) (mk : String → Except String Unit) (e : String),
      mk u = .error e →
      frost_observation_upload (.ok u) mk = (⟨0, 1, false⟩, .uploadFailure e)) := by
  refine ⟨fun e mk => rfl, fun u mk h => ?_, fun u mk e h => ?_⟩
  · simp [frost_observation_upload, h]
  · simp [frost_observation_upload, h]

/-- C6 witness: the amended theorem's success and POST-failure branches
at a concrete URL and concrete POST outcomes. -/
theorem C6_upload_accounting_witness :
    frost_observation_upload (.ok "Datastreams(1)/Observations")
        (fun _ => .ok ()) = (⟨1, 0, true⟩, .success) ∧
    frost_observation_upload (.ok "Datastreams(1)/Observations")
        (fun _ => .error "HTTP 500") = (⟨0, 1, false⟩, .uploadFailure "HTTP 500") :=
  ⟨C6_upload_accounting.2.1 "Datastreams(1)/Observations" _ rfl,
   C6_upload_accounting.2.2 "Datastreams(1)/Observations" _ "HTTP 500" rfl⟩

/-! ## Claim C9 — monitor report cycle -/

/-- C9 counterexample: with starting threads `app1, app2` and only
`app2` still live, the report cycle computes `deadThreads = [app1]`
and terminates the process, but the thread message is logged via
`main_logger.warning`, not critically, contradicting the claim's "logs
critically". -/
theorem C9_counterexample :
    monitorReport deadThreadMonitorState ["app2", "MainThread"] =
      ⟨["app1"], true, .warning, false, [], false⟩ ∧
    (monitorReport deadThreadMonitorState
        ["app2", "MainThread"]).threadLogLevel ≠ .critical := by
  decide

/-- C9 (amended): each report cycle computes `deadThreads` as the set
difference of the starting threads and the currently live thread
names; when non-empty it logs the thread message at *warning* level
and terminates the process without logging counters or writing the
snapshot; when empty it logs at info level, logs the counters, flags
expected sensors that never reported a successful push, and writes the
snapshot report. -/
theorem C9_report_cycle (s : MonitorState) (live : List String) :
    (monitorReport s live).deadThreads =
      s.startingApplicationThreads.filter (fun t => !live.contains t) ∧
    ((monitorReport s live).deadThreads ≠ [] →
      monitorReport s live =
        ⟨s.startingApplicationThreads.filter (fun t => !live.contains t),
         true, .warning, false, [], false⟩) ∧
    ((monitorReport s live).deadThreads = [] →
      monitorReport s live =
        ⟨[], false, .info, true,
         s.expectedSensors.filter
           (fun x => !(s.pushSuccess.map Prod.fst).contains x),
         true⟩) := by
  unfold monitorReport
  by_cases h :
      (s.startingApplicationThreads.filter (fun t => !live.contains t)).isEmpty
  · have he : s.startingApplicationThreads.filter (fun t => !live.contains t) = [] :=
      List.isEmpty_iff.mp h
    rw [if_pos h]
    refine ⟨rfl, fun hne => absurd he hne, fun _ => ?_⟩
    rw [he]
  · have he : s.startingApplicationThreads.filter (fun t => !live.contains t) ≠ [] := by
      intro hc
      rw [hc] at h
      exact h rfl
    rw [if_neg h]
    exact ⟨rfl, fun _ => rfl, fun hemp => absurd hemp he⟩

/-- C9 witness: the amended theorem at the dead-thread state (the
non-empty branch) and at a state whose threads are all live (the
empty branch). -/
theorem C9_report_cycle_witness :
    monitorReport deadThreadMonitorState ["app2", "MainThread"] =
      ⟨["app1"], true, .warning, false, [], false⟩ ∧
    monitorReport deadThreadMonitorState ["app1", "app2", "MainThread"] =
      ⟨[], false, .info, true, [], true⟩ :=
  ⟨(C9_report_cycle deadThreadMonitorState ["app2", "MainThread"]).2.1
      (by decide),
   (C9_report_cycle deadThreadMonitorState ["app1", "app2", "MainThread"]).2.2
      (by decide)⟩

/-! ## Helper lemmas on dict and `Except` operations -/

/-- `lowerKeys` distributes over cons. -/
theorem lowerKeys_cons (kv : String × Value) (l : PyDict) :
    lowerKeys (kv :: l) = (pyToLower kv.1, kv.2) :: lowerKeys l := rfl

/-- The unfolding of `dictGet` on a cons cell. -/
theorem dictGet_cons (kv : String × Value) (l : PyDict) (k : String) :
    dictGet (kv :: l) k =
      match dictGet l k with
      | some v => some v
      | Option.none => if kv.1 = k then some kv.2 else Option.none := rfl

/-- `Except.map` preserves success. -/
theorem exceptOk_map {ε α β : Type} (f : α → β) (e : Except ε α) :
    exceptOk (e.map f) = exceptOk e := by
  cases e <;> rfl

/-- Dropping the payload entries whose lower-cased key is not a
declared field does not change the lookup of a declared field. -/
theorem dictGet_lowerKeys_filter (fields : List String) (m : PyDict)
    (f : String) (hf : f ∈ fields) :
    dictGet (lowerKeys (m.filter (fun kv => fields.contains (pyToLower kv.1)))) f =
      dictGet (lowerKeys m) f := by
  induction m with
  | nil => rfl
  | cons kv rest ih =>
    rw [List.filter_cons]
    cases hp : fields.contains (pyToLower kv.1) with
    | true =>
      rw [if_pos rfl, lowerKeys_cons, lowerKeys_cons, dictGet_cons, dictGet_cons, ih]
    | false =>
      rw [if_neg (by simp), lowerKeys_cons, dictGet_cons, ih]
      have hne : pyToLower kv.1 ≠ f := by
        intro he
        have hcont : fields.contains f = true := List.elem_iff.mpr hf
        rw [he, hcont] at hp
        exact Bool.noConfusion hp
      cases hr : dictGet (lowerKeys rest) f <;> simp [hne]

/-- `constructFields` depends only on the lookups of the declared
fields. -/
theorem constructFields_congr (p₁ p₂ : PyDict) :
    ∀ fs : List String, (∀ f ∈ fs, dictGet p₁ f = dictGet p₂ f) →
      constructFields p₁ fs = constructFields p₂ fs := by
  intro fs
  induction fs with
  | nil => intro _; rfl
  | cons g gs ih =>
    intro h
    simp only [constructFields]
    rw [h g (List.mem_cons_self g gs),
      ih (fun f hf => h f (List.mem_cons_of_mem g hf))]

/-- Binding the declared fields fails when one of them has no binding
in the payload. -/
theorem constructFields_not_ok_of_missing (payload : PyDict) :
    ∀ (fs : List String) (f : String), f ∈ fs →
      dictGet payload f = Option.none →
      exceptOk (constructFields payload fs) = false := by
  intro fs
  induction fs with
  | nil => intro f hf; cases hf
  | cons g gs ih =>
    intro f hf hnone
    cases hf with
    | head => simp [constructFields, hnone, exceptOk]
    | tail _ hmem =>
      cases hg : dictGet payload g with
      | none => simp [constructFields, hg, exceptOk]
      | some v =>
        simp only [constructFields, hg]
        have hrec := ih f hmem hnone
        cases hc : constructFields payload gs with
        | error e => simp [Except.map, exceptOk]
        | ok l => rw [hc] at hrec; simp [exceptOk] at hrec

/-- Every pair emitted by `to_stObservations` comes from a
non-phenomenon-time entry of `transformed_results` and carries the one
shared phenomenon time. -/
theorem mem_to_stObservations {model : TransformerModel}
    {inst : TransformerInst} {o : StObservation × String}
    (h : o ∈ to_stObservations model inst) :
    ∃ dv ∈ transformedResults model inst.vals,
      dv.1 ≠ ObservedProperties.PHENOMENON_TIME ∧
      o = (⟨dv.2,
            pyOrElse (opDictGet (transformedResults model inst.vals)
              .PHENOMENON_TIME) inst.appPhenomenonTime⟩, dv.1.value) := by
  simp only [to_stObservations, List.mem_filterMap] at h
  obtain ⟨dv, hmem, hf⟩ := h
  by_cases hpt : dv.1 = ObservedProperties.PHENOMENON_TIME
  · rw [if_pos hpt] at hf
    exact Option.noConfusion hf
  · rw [if_neg hpt] at hf
    exact ⟨dv, hmem, hpt, (Option.some_inj.mp hf).symm⟩

/-- The `.value` string of any non-phenomenon-time observed property
differs from `"phenomenon_time"`. -/
theorem value_ne_phenomenon_time (op : ObservedProperties)
    (h : op ≠ .PHENOMENON_TIME) : op.value ≠ "phenomenon_time" := by
  cases op <;> first
    | exact absurd rfl h
    | decide

/-- `netatmoUnpackGo` fails whenever the remaining payload contains a
device that will raise a `KeyError`: one lacking `reachable`, or a
truthy-reachable one lacking `dashboard_data` or `_id`. -/
theorem netatmoUnpackGo_not_ok_of_bad_device :
    ∀ (payload : List PyDict) (acc : VDict) (d : PyDict), d ∈ payload →
      (dictGet d "reachable" = Option.none ∨
        (∃ r, dictGet d "reachable" = some r ∧ r.truthy = true ∧
          (dictGet d "dashboard_data" = Option.none ∨
            dictGet d "_id" = Option.none))) →
      exceptOk (netatmoUnpackGo payload acc) = false := by
  intro payload
  induction payload with
  | nil => intro acc d hd; cases hd
  | cons dHead rest ih =>
    intro acc d hd hbad
    cases hd with
    | head =>
      rcases hbad with h1 | ⟨r, h1, htr, h2⟩
      · simp [netatmoUnpackGo, h1, exceptOk]
      · rcases h2 with h2 | h2
        · simp [netatmoUnpackGo, h1, htr, h2, exceptOk]
        · cases hdd : dictGet dHead "dashboard_data" with
          | none => simp [netatmoUnpackGo, h1, htr, hdd, exceptOk]
          | some dd => simp [netatmoUnpackGo, h1, htr, hdd, h2, exceptOk]
    | tail _ hmem =>
      cases h1 : dictGet dHead "reachable" with
      | none => simp [netatmoUnpackGo, h1, exceptOk]
      | some r =>
        cases htr : r.truthy with
        | false => simpa [netatmoUnpackGo, h1, htr] using ih acc d hmem hbad
        | true =>
          cases h2 : dictGet dHead "dashboard_data" with
          | none => simp [netatmoUnpackGo, h1, htr, h2, exceptOk]
          | some dd =>
            cases h3 : dictGet dHead "_id" with
            | none => simp [netatmoUnpackGo, h1, htr, h2, h3, exceptOk]
            | some idv =>
              simpa [netatmoUnpackGo, h1, htr, h2, h3] using
                ih (vdictSet acc idv dd) d hmem hbad

/-! ## Claim C3 — construction as schema enforcement -/

/-- C3 counterexample: a native field map carrying every declared
AM308L field *plus* the undeclared key `undeclared_extra` constructs
successfully — pydantic's default `extra='ignore'` drops the extra
field silently instead of raising a construction error as the claim
states.  (The Netatmo docstring sample itself carries the undeclared
`temp_trend`/`pressure_trend` fields, which the pipeline must accept.) -/
theorem C3_counterexample :
    from_unpack milesightAm308l am308lNativeSample Option.none =
      .ok ⟨am308lBoundVals, Option.none⟩ ∧
    dictGet am308lBoundVals "undeclared_extra" = Option.none := by
  exact ⟨rfl, rfl⟩

/-- C3 (amended): construction raises a hard error whenever a declared
field of the target model has no (lower-cased) binding in the native
field map — no default is substituted; but a field *not* declared by
the model is silently ignored: the construction result is unchanged
when all such keys are dropped from the map. -/
theorem C3_schema_enforcement :
    (∀ (model : TransformerModel) (m : PyDict) (t : Option Value) (f : String),
      f ∈ model.fields → dictGet (lowerKeys m) f = Option.none →
      exceptOk (from_unpack model m t) = false) ∧
    (∀ (model : TransformerModel) (m : PyDict) (t : Option Value),
      from_unpack model m t =
        from_unpack model
          (m.filter (fun kv => model.fields.contains (pyToLower kv.1))) t) := by
  constructor
  · intro model m t f hf hnone
    rw [from_unpack, exceptOk_map]
    have hcf := constructFields_not_ok_of_missing (lowerKeys m) model.fields f hf hnone
    rw [construct]
    cases hc : constructFields (lowerKeys m) model.fields with
    | error e => rfl
    | ok l => rw [hc] at hcf; simp [exceptOk] at hcf
  · intro model m t
    rw [from_unpack, from_unpack, construct, construct,
      constructFields_congr (lowerKeys m)
        (lowerKeys (m.filter (fun kv => model.fields.contains (pyToLower kv.1))))
        model.fields
        (fun f hf => (dictGet_lowerKeys_filter model.fields m f hf).symm)]

/-- C3 witness: the missing-field branch of the amended theorem at the
AM308L model and a map that lacks `battery`, and the extra-field
branch at the sample map. -/
theorem C3_schema_enforcement_witness :
    exceptOk (from_unpack milesightAm308l [("co2", Value.int 1)] Option.none) =
      false ∧
    from_unpack milesightAm308l am308lNativeSample Option.none =
      from_unpack milesightAm308l
        (am308lNativeSample.filter
          (fun kv => milesightAm308l.fields.contains (pyToLower kv.1)))
        Option.none :=
  ⟨C3_schema_enforcement.1 milesightAm308l [("co2", Value.int 1)] Option.none
      "battery" (by decide) rfl,
   C3_schema_enforcement.2 milesightAm308l am308lNativeSample Option.none⟩

/-! ## Claim C4 — non-empty unpack output -/

/-- C4 counterexample: `NetatmoUnpacker.unpack` succeeds with an
*empty* data map both on an empty device list and on a payload whose
only device is unreachable — an empty payload is a valid empty result,
not an Unpack failure as the claim states. -/
theorem C4_counterexample :
    netatmoUnpack [] = .ok ⟨[], Option.none⟩ ∧
    netatmoUnpack [netatmoDeviceUnreachable] = .ok ⟨[], Option.none⟩ :=
  ⟨rfl, rfl⟩

/-- C4 (amended): unpacking raises `MissingPayloadKeysError` when a
device lacks the `reachable` key, or when a truthy-reachable device
lacks the `dashboard_data` or `_id` key; a reachable device
contributes its `dashboard_data` under its `_id` while an unreachable
one is skipped; but success does not imply a non-empty data map — the
empty device list unpacks to an empty map. -/
theorem C4_unpack_characterization :
    netatmoUnpack [] = .ok ⟨[], Option.none⟩ ∧
    netatmoUnpack [netatmoDeviceReachable, netatmoDeviceUnreachable] =
      .ok ⟨[(.str "70:ee:50:7f:9d:32",
             .dict [("time_utc", .int 1765374089), ("Temperature", .int 23)])],
           Option.none⟩ ∧
    (∀ (payload : List PyDict) (d : PyDict), d ∈ payload →
      dictGet d "reachable" = Option.none →
      exceptOk (netatmoUnpack payload) = false) ∧
    (∀ (payload : List PyDict) (d : PyDict) (r : Value), d ∈ payload →
      dictGet d "reachable" = some r → r.truthy = true →
      dictGet d "dashboard_data" = Option.none →
      exceptOk (netatmoUnpack payload) = false) ∧
    (∀ (payload : List PyDict) (d : PyDict) (r : Value), d ∈ payload →
      dictGet d "reachable" = some r → r.truthy = true →
      dictGet d "_id" = Option.none →
      exceptOk (netatmoUnpack payload) = false) := by
  refine ⟨rfl, rfl,
    fun payload d hd hr => ?_,
    fun payload d r hd hr htr hdd => ?_,
    fun payload d r hd hr htr hid => ?_⟩
  · rw [netatmoUnpack, exceptOk_map]
    exact netatmoUnpackGo_not_ok_of_bad_device payload [] d hd (Or.inl hr)
  · rw [netatmoUnpack, exceptOk_map]
    exact netatmoUnpackGo_not_ok_of_bad_device payload [] d hd
      (Or.inr ⟨r, hr, htr, Or.inl hdd⟩)
  · rw [netatmoUnpack, exceptOk_map]
    exact netatmoUnpackGo_not_ok_of_bad_device payload [] d hd
      (Or.inr ⟨r, hr, htr, Or.inr hid⟩)

/-- C4 witness: the three missing-key branches of the amended theorem —
an empty device record (no `reachable`), a reachable record without
`dashboard_data`, and a reachable record with `dashboard_data` but no
`_id`. -/
theorem C4_unpack_characterization_witness :
    exceptOk (netatmoUnpack [([] : PyDict)]) = false ∧
    exceptOk (netatmoUnpack [[("reachable", Value.bool true)]]) = false ∧
    exceptOk (netatmoUnpack
      [[("reachable", Value.bool true), ("dashboard_data", Value.dict [])]]) =
      false :=
  ⟨C4_unpack_characterization.2.2.1 [([] : PyDict)] []
      (List.mem_singleton.mpr rfl) rfl,
   C4_unpack_characterization.2.2.2.1 [[("reachable", Value.bool true)]]
      [("reachable", Value.bool true)] (Value.bool true)
      (List.mem_singleton.mpr rfl) rfl rfl rfl,
   C4_unpack_characterization.2.2.2.2
      [[("reachable", Value.bool true), ("dashboard_data", Value.dict [])]]
      [("reachable", Value.bool true), ("dashboard_data", Value.dict [])]
      (Value.bool true) (List.mem_singleton.mpr rfl) rfl rfl rfl⟩

/-! ## Claim C5 — name-transform tables and phenomenon time -/

/-- C5: every registered model's `NAME_TRANSFORM` maps its keys to
pairwise-distinct observed properties; the reserved phenomenon-time
entry is never emitted as an observation; and every emitted
observation carries the phenomenon-time field's (transformed, truthy)
value as its `phenomenonTime`, falling back to the unpacker's
application timestamp when the model maps no field to the reserved
property. -/
theorem C5_phenomenon_time_handling :
    (∀ mt ∈ TRANSFORMER_MAP,
      (mt.2.NAME_TRANSFORM.map Prod.snd).Pairwise (· ≠ ·)) ∧
    (∀ (model : TransformerModel) (inst : TransformerInst)
        (o : StObservation × String), o ∈ to_stObservations model inst →
      o.2 ≠ ObservedProperties.PHENOMENON_TIME.value) ∧
    (∀ (model : TransformerModel) (inst : TransformerInst),
      opDictGet (transformedResults model inst.vals) .PHENOMENON_TIME =
        Option.none →
      ∀ o ∈ to_stObservations model inst,
        o.1.phenomenonTime = inst.appPhenomenonTime) ∧
    (∀ (model : TransformerModel) (inst : TransformerInst) (v : Value),
      opDictGet (transformedResults model inst.vals) .PHENOMENON_TIME = some v →
      v.truthy = true →
      ∀ o ∈ to_stObservations model inst, o.1.phenomenonTime = some v) := by
  refine ⟨?_, ?_, ?_, ?_⟩
  · intro mt hmt
    simp only [TRANSFORMER_MAP, List.mem_cons, List.not_mem_nil, or_false] at hmt
    rcases hmt with h | h | h <;> subst h <;> decide
  · intro model inst o ho
    obtain ⟨dv, _, hne, rfl⟩ := mem_to_stObservations ho
    exact value_ne_phenomenon_time dv.1 hne
  · intro model inst hget o ho
    obtain ⟨dv, _, _, rfl⟩ := mem_to_stObservations ho
    simp [pyOrElse, hget]
  · intro model inst v hget htr o ho
    obtain ⟨dv, _, _, rfl⟩ := mem_to_stObservations ho
    simp [pyOrElse, hget, htr]

/-- C5 witness: the distinctness conjunct at the AM103L registry entry
and the emission conjuncts at the Netatmo sample instance, whose first
emitted observation is the indoor temperature carrying the transformed
`time_utc` value as `phenomenonTime`. -/
theorem C5_phenomenon_time_handling_witness :
    (milesightAm103l.NAME_TRANSFORM.map Prod.snd).Pairwise (· ≠ ·) ∧
    ((⟨Value.int 23, some (Value.time 1765374089)⟩, "temperature_indoor") :
        StObservation × String).2 ≠ ObservedProperties.PHENOMENON_TIME.value ∧
    ((⟨Value.int 23, some (Value.time 1765374089)⟩, "temperature_indoor") :
        StObservation × String).1.phenomenonTime =
      some (Value.time 1765374089) :=
  ⟨C5_phenomenon_time_handling.1 ⟨.MILESIGHT_AM103L, milesightAm103l⟩
      (List.Mem.head _),
   C5_phenomenon_time_handling.2.1 netatmoNWS03 netatmoSampleInst
      (⟨Value.int 23, some (Value.time 1765374089)⟩, "temperature_indoor")
      (List.Mem.head _),
   C5_phenomenon_time_handling.2.2.2 netatmoNWS03 netatmoSampleInst
      (Value.time 1765374089) rfl rfl
      (⟨Value.int 23, some (Value.time 1765374089)⟩, "temperature_indoor")
      (List.Mem.head _)⟩

/-! ## Claim C10 — case-insensitive field binding -/

/-- C10: `from_unpack` lower-cases every key before binding, so two
native maps whose lower-cased key maps agree construct identically;
in particular the Netatmo docstring sample with its vendor-cased
`Temperature`/`CO2`/`Humidity`/`Noise`/`Pressure` keys constructs
successfully, binding the lower-case declared fields. -/
theorem C10_lowercased_binding :
    (∀ (model : TransformerModel) (m₁ m₂ : PyDict) (t : Option Value),
      lowerKeys m₁ = lowerKeys m₂ →
      from_unpack model m₁ t = from_unpack model m₂ t) ∧
    from_unpack netatmoNWS03 netatmoMixedCaseSample Option.none =
      .ok ⟨netatmoBoundVals, Option.none⟩ := by
  constructor
  · intro model m₁ m₂ t h
    rw [from_unpack, from_unpack, h]
  · rfl

/-- C10 witness: the amended-free theorem's first conjunct at the
mixed-case sample and its fully lower-cased variant, which have equal
lower-cased key maps. -/
theorem C10_lowercased_binding_witness :
    from_unpack netatmoNWS03 netatmoMixedCaseSample Option.none =
      from_unpack netatmoNWS03 netatmoLowerCaseSample Option.none :=
  C10_lowercased_binding.1 netatmoNWS03 netatmoMixedCaseSample
    netatmoLowerCaseSample Option.none rfl

end STUtils
